import Mathlib

/-!
Verification of the diffusion-analysis core of the TDA analysis system
(`modules/calcs.py`).  The source operates on numpy float arrays; the
embedding models a float scalar as `FV`: either a finite rational value or
one of the IEEE specials (`+inf`, `-inf`, `nan`), with IEEE comparison
semantics (every comparison involving `nan` is false, infinities compare in
the usual way).  Exact rational/real arithmetic stands in for rounded float
arithmetic; irrational-valued transforms (square roots, logarithms, pi) are
embedded over the reals.  Python exceptions become `Except` with a typed
error `TDAErr`; each constructor corresponds to one raise site's message.
The source's broad try/except re-wrapping inside the leaf functions keeps
the original message embedded in the new one, so it preserves the error's
identity; the embedding therefore models those inner wrappers as the
identity, and models the orchestrator's top-level wrapper (which the spec
names separately) explicitly as the `diffusionAnalysisError` constructor.
-/

/-- A numpy float scalar: a finite rational, or an IEEE special value. -/
inductive FV where
  | fin (q : ℚ)
  | pinf
  | ninf
  | nan
deriving DecidableEq, Repr

namespace FV

/-- `np.isfinite`. -/
def isFinite : FV → Bool
  | fin _ => true
  | _ => false

/-- `v > c` for a finite rational bound `c` (IEEE semantics: `nan` compares false). -/
def gtQ : FV → ℚ → Bool
  | fin q, c => decide (c < q)
  | pinf, _ => true
  | ninf, _ => false
  | nan, _ => false

/-- `v ≥ c` for a finite rational bound `c` (IEEE semantics: `nan` compares false). -/
def geQ : FV → ℚ → Bool
  | fin q, c => decide (c ≤ q)
  | pinf, _ => true
  | ninf, _ => false
  | nan, _ => false

end FV

/-- Typed error taxonomy for `TDACalculationError`.  Each constructor stands
for one distinct raise-site message in `calcs.py`; `diffusionAnalysisError`
is the orchestrator's catch-all re-wrap. -/
inductive TDAErr where
  | insufficientData (msg : String)
  | insufficientTailData (msg : String)
  | insufficientDataAboveNoise
  | invalidTailRegion (warnings : List String)
  | unknownAnalysisMode (mode : String)
  | diffusionAnalysisError (inner : TDAErr)
deriving DecidableEq, Repr

/-- Largest element of a list, with a default for the empty list (`np.max`
is only applied to nonempty arrays in the source). -/
def listMaxD {α : Type} [LinearOrder α] (l : List α) (d : α) : α :=
  match l with
  | [] => d
  | a :: rest => rest.foldl max a

/-- Smallest element of a list, with a default for the empty list. -/
def listMinD {α : Type} [LinearOrder α] (l : List α) (d : α) : α :=
  match l with
  | [] => d
  | a :: rest => rest.foldl min a

/-- The `valid_mask` filter of `TailRegionAnalyzer.find_tail_start` and
`validate_tail_region`: keep entries where `rate > 0`, the rate is finite
and the time is finite; the survivors are returned as exact rational
(time, rate) pairs in input order. -/
def validPairs (pairs : List (FV × FV)) : List (ℚ × ℚ) :=
  pairs.filterMap (fun p =>
    match p with
    | (.fin t, .fin r) => if 0 < r then some (t, r) else none
    | _ => none)

/-- The candidate tail-start times of `find_tail_start`: filtered times whose
rate is below the threshold and which lie strictly after `minTime`. -/
def tailCandidates (valid : List (ℚ × ℚ)) (minTime threshold : ℚ) : List ℚ :=
  (valid.filter (fun p => decide (p.2 < threshold) && decide (minTime < p.1))).map Prod.fst

/-- `TailRegionAnalyzer.find_tail_start` (calcs.py lines 59-107).  The
source's surrounding try/except re-wraps the message while preserving it, so
it is modelled as the identity on the typed error. -/
def find_tail_start (time_minutes desorption_rate : List FV)
    (min_time : ℚ := 60) (peak_fraction : ℚ := 1/10) : Except TDAErr ℚ :=
  if time_minutes.length ≠ desorption_rate.length ∨ time_minutes.length < 10 then
    .error (.insufficientData "Insufficient data for tail analysis")
  else
    let valid := validPairs (time_minutes.zip desorption_rate)
    if valid.length < 5 then
      .error (.insufficientData "Insufficient valid data points")
    else
      let max_rate := listMaxD (valid.map Prod.snd) 0
      let threshold := max_rate * peak_fraction
      match tailCandidates valid min_time threshold with
      | [] => .ok (max min_time ((valid.map Prod.fst).getD (valid.length / 3) 0))
      | c :: _ => .ok c

/-- The validation report returned by `validate_tail_region`. -/
structure ValidationReport where
  is_valid : Bool
  num_points : Nat
  duration_hours : ℚ
  min_time : ℚ
  max_time : ℚ
  warnings : List String
deriving DecidableEq, Repr

/-- The tail filter of `validate_tail_region`: first `time ≥ tail_start`
(IEEE: `nan`/`-inf` times drop out), then the `valid_mask` of positive,
finite rate and finite time. -/
def tailValidPairs (time rate : List FV) (tail_start : ℚ) : List (ℚ × ℚ) :=
  validPairs ((time.zip rate).filter (fun p => p.1.geQ tail_start))

/-- `TailRegionAnalyzer.validate_tail_region` (calcs.py lines 109-154).  The
body never raises for parallel input arrays, so the embedding is total. -/
def validate_tail_region (time_minutes desorption_rate : List FV)
    (tail_start : ℚ) : ValidationReport :=
  let valid := tailValidPairs time_minutes desorption_rate tail_start
  let num_points := valid.length
  let times := valid.map Prod.fst
  let duration : ℚ := if num_points > 1 then times.getLastD 0 - times.headD 0 else 0
  { is_valid := num_points ≥ 10
    num_points := num_points
    duration_hours := duration / 60
    min_time := if num_points > 0 then times.headD 0 else 0
    max_time := if num_points > 0 then times.getLastD 0 else 0
    warnings :=
      (if num_points < 10 then
        ["Insufficient data points for reliable analysis (minimum 10 recommended)"]
      else []) ++
      (if duration < 60 then
        ["Short tail duration may affect analysis quality"]
      else []) }

/-- The x-coordinate of the 1/√t transform applied to a surviving time value
(minutes).  Time is converted to seconds (`time * 60`) before the square
root.  The filter keeps only times with `t > 0`, i.e. positive finite times
or `+inf`; in IEEE arithmetic `1/sqrt(inf) = 0`, which the `pinf` case
mirrors.  The remaining cases are unreachable for survivors. -/
noncomputable def invSqrt60 : FV → ℝ
  | .fin t => 1 / Real.sqrt (60 * (t : ℝ))
  | .pinf => 0
  | .ninf => 0
  | .nan => 0

/-- The `valid_mask` of `calculate_1_sqrt_t_plot`: `rate > 0`, rate finite,
`time > 0` (note: time is not required to be finite there). -/
def sqrtTailSurvivors (pairs : List (FV × FV)) : List (FV × ℚ) :=
  pairs.filterMap (fun p =>
    match p.2 with
    | .fin r => if 0 < r ∧ p.1.gtQ 0 then some (p.1, r) else none
    | _ => none)

/-- `DiffusionPlotCalculator.calculate_1_sqrt_t_plot` (calcs.py lines
160-202): filter to the tail (`time ≥ tail_start`), drop non-positive or
non-finite rates and non-positive times, require ≥ 3 survivors, and return
`(1/sqrt(time*60), rate)`. -/
noncomputable def calculate_1_sqrt_t_plot (time_minutes desorption_rate : List FV)
    (tail_start : ℚ) : Except TDAErr (List ℝ × List ℚ) :=
  let tail := (time_minutes.zip desorption_rate).filter (fun p => p.1.geQ tail_start)
  let valid := sqrtTailSurvivors tail
  if valid.length < 3 then
    .error (.insufficientTailData "Insufficient valid data points in tail region")
  else
    .ok (valid.map (fun p => invSqrt60 p.1), valid.map Prod.snd)

/-- `DiffusionPlotCalculator.calculate_sqrt_t_plot` (calcs.py lines
204-245): filter to the tail, drop non-finite cumulative values and
non-positive or non-finite times, require ≥ 3 survivors, and return
`(sqrt(time*60), cumulative)`. -/
noncomputable def calculate_sqrt_t_plot (time_minutes cumulative_hydrogen : List FV)
    (tail_start : ℚ) : Except TDAErr (List ℝ × List ℚ) :=
  let tail := (time_minutes.zip cumulative_hydrogen).filter (fun p => p.1.geQ tail_start)
  let valid : List (ℚ × ℚ) := tail.filterMap (fun p =>
    match p with
    | (.fin t, .fin c) => if 0 < t then some (t, c) else none
    | _ => none)
  if valid.length < 3 then
    .error (.insufficientTailData "Insufficient valid data points in tail region")
  else
    .ok (valid.map (fun p => Real.sqrt (60 * (p.1 : ℝ))), valid.map Prod.snd)

/-- `DiffusionPlotCalculator.calculate_log_log_plot` (calcs.py lines
247-286): filter to the tail, keep positive finite rates and positive finite
times, require ≥ 3 survivors, and return `(log10 time, log10 rate)` with
time in its native minutes. -/
noncomputable def calculate_log_log_plot (time_minutes desorption_rate : List FV)
    (tail_start : ℚ) : Except TDAErr (List ℝ × List ℝ) :=
  let tail := (time_minutes.zip desorption_rate).filter (fun p => p.1.geQ tail_start)
  let valid : List (ℚ × ℚ) := tail.filterMap (fun p =>
    match p with
    | (.fin t, .fin r) => if 0 < r ∧ 0 < t then some (t, r) else none
    | _ => none)
  if valid.length < 3 then
    .error (.insufficientTailData "Insufficient valid data points in tail region")
  else
    .ok (valid.map (fun p => Real.logb 10 (p.1 : ℝ)), valid.map (fun p => Real.logb 10 (p.2 : ℝ)))

/-- Result record of `LinearRegressionAnalyzer.perform_linear_regression`.
The scipy fields `p_value`, `r_value` and `std_err` require the Student-t
distribution and square roots of sums; no verified claim constrains their
values, so the record carries the algebraically exact fields (`r_squared` is
`r_value ** 2`, which is rational in the sums). -/
structure RegResult (α : Type) where
  slope : α
  intercept : α
  r_squared : α
  num_points : Nat
  fit_x : List α
  fit_y : List α

/-- `np.linspace a b 100`: 100 evenly spaced samples including both
endpoints. -/
def linspace100 {α : Type} [Field α] (a b : α) : List α :=
  (List.range 100).map (fun i : Nat => a + (i : α) * (b - a) / 99)

/-- `LinearRegressionAnalyzer.perform_linear_regression` (calcs.py lines
292-342): length guard, noise filter `|y| > noise_threshold`, ordinary
least-squares fit (scipy's `linregress` slope/intercept/r² formulas), and a
100-point fit line spanning the filtered x range. -/
def perform_linear_regression {α : Type} [LinearOrderedField α]
    (x_data y_data : List α) (noise_threshold : α) : Except TDAErr (RegResult α) :=
  if x_data.length ≠ y_data.length ∨ x_data.length < 3 then
    .error (.insufficientData "Insufficient data for regression analysis")
  else
    let pairs := (x_data.zip y_data).filter (fun p => decide (noise_threshold < |p.2|))
    if pairs.length < 3 then
      .error .insufficientDataAboveNoise
    else
      let x_filtered := pairs.map Prod.fst
      let y_filtered := pairs.map Prod.snd
      let n : α := (pairs.length : α)
      let xbar := x_filtered.sum / n
      let ybar := y_filtered.sum / n
      let sxy := (pairs.map (fun p => (p.1 - xbar) * (p.2 - ybar))).sum
      let sxx := (x_filtered.map (fun t => (t - xbar) ^ 2)).sum
      let syy := (y_filtered.map (fun t => (t - ybar) ^ 2)).sum
      let slope := sxy / sxx
      let intercept := ybar - slope * xbar
      let fit_x := linspace100 (listMinD x_filtered 0) (listMaxD x_filtered 0)
      let fit_y := fit_x.map (fun t => slope * t + intercept)
      .ok { slope := slope
            intercept := intercept
            r_squared := sxy ^ 2 / (sxx * syy)
            num_points := pairs.length
            fit_x := fit_x
            fit_y := fit_y }

/-- Qualitative fit grade. -/
inductive Grade where
  | Poor
  | Fair
  | Good
  | Excellent
deriving DecidableEq, Repr

/-- Numeric tier of a grade, for the ordering Poor < Fair < Good < Excellent. -/
def Grade.rank : Grade → Nat
  | .Poor => 0
  | .Fair => 1
  | .Good => 2
  | .Excellent => 3

/-- `LinearRegressionAnalyzer.assess_fit_quality` (calcs.py lines 344-364):
ordered thresholds, first match wins. -/
def assess_fit_quality (r_squared p_value : ℚ) (num_points : Nat) : Grade :=
  if 95/100 ≤ r_squared ∧ p_value < 1/100 ∧ 10 ≤ num_points then .Excellent
  else if 90/100 ≤ r_squared ∧ p_value < 5/100 ∧ 8 ≤ num_points then .Good
  else if 80/100 ≤ r_squared ∧ p_value < 1/10 ∧ 5 ≤ num_points then .Fair
  else .Poor

/-- `DiffusionCoefficientCalculator.calculate_diffusion_coefficient`
(calcs.py lines 370-415): early return 0.0 for a zero slope, otherwise
`D = |pi * (slope * thickness)^2 / (4 * delta_c^2)|` with the normalized
concentration difference `delta_c = 1`.  The `cr` parameter embeds the
source's `surface_concentration_ratio` argument, which the source never
uses. -/
noncomputable def calculate_diffusion_coefficient (slope : ℝ)
    (sample_thickness : ℝ := 1/10) (cr : ℝ := 1) : ℝ :=
  if slope = 0 then 0
  else
    let delta_c : ℝ := 1
    |Real.pi * (slope * sample_thickness) ^ 2 / (4 * delta_c ^ 2)|

/-- The result record assembled by the orchestrator
(`DiffusionAnalysisResult` in calcs.py lines 17-53).  The `p_value`,
`std_error` and `goodness_of_fit` fields require scipy's Student-t
statistics, which no verified claim constrains; they are omitted from the
embedding. -/
structure DiffusionResult where
  tail_start_time : ℚ
  analysis_type : String
  slope : ℝ
  intercept : ℝ
  r_squared : ℝ
  num_points : Nat
  x_data : List ℝ
  y_data : List ℝ
  fit_x : List ℝ
  fit_y : List ℝ
  diffusion_coefficient : ℝ
  thickness : ℝ

/-- The mode dispatch of the orchestrator (calcs.py lines 806-820): pick the
transform for the requested analysis type, casting y data to the common
real-valued plot type. -/
noncomputable def transformFor (analysis_type : String)
    (time_minutes desorption_rate cumulative_hydrogen : List FV)
    (tail_start : ℚ) : Except TDAErr (List ℝ × List ℝ) :=
  if analysis_type = "1_sqrt_t" then
    (calculate_1_sqrt_t_plot time_minutes desorption_rate tail_start).map
      (fun p => (p.1, p.2.map (fun q => (q : ℝ))))
  else if analysis_type = "sqrt_t" then
    (calculate_sqrt_t_plot time_minutes cumulative_hydrogen tail_start).map
      (fun p => (p.1, p.2.map (fun q => (q : ℝ))))
  else if analysis_type = "log_log" then
    calculate_log_log_plot time_minutes desorption_rate tail_start
  else
    .error (.unknownAnalysisMode analysis_type)

/-- The body of `DiffusionAnalysisEngine.analyze_diffusion_behavior`
(calcs.py lines 770-852), before the surrounding try/except: auto-detect or
accept the tail start, validate the tail region (hard stop when invalid),
transform, regress, and assemble the result. -/
noncomputable def analyzeBody (time_minutes desorption_rate cumulative_hydrogen : List FV)
    (analysis_type : String) (tail_start : Option ℚ)
    (sample_thickness : ℝ) (calculate_D : Bool) : Except TDAErr DiffusionResult :=
  match (match tail_start with
         | some t => Except.ok t
         | none => find_tail_start time_minutes desorption_rate) with
  | .error e => .error e
  | .ok ts =>
    let validation := validate_tail_region time_minutes desorption_rate ts
    if validation.is_valid then
      match transformFor analysis_type time_minutes desorption_rate cumulative_hydrogen ts with
      | .error e => .error e
      | .ok (x_data, y_data) =>
        match perform_linear_regression x_data y_data (1 / 10 ^ 12) with
        | .error e => .error e
        | .ok reg =>
          .ok { tail_start_time := ts
                analysis_type := analysis_type
                slope := reg.slope
                intercept := reg.intercept
                r_squared := reg.r_squared
                num_points := reg.num_points
                x_data := x_data
                y_data := y_data
                fit_x := reg.fit_x
                fit_y := reg.fit_y
                diffusion_coefficient :=
                  if calculate_D ∧ analysis_type = "1_sqrt_t" then
                    calculate_diffusion_coefficient reg.slope sample_thickness 1
                  else 0
                thickness :=
                  if calculate_D ∧ analysis_type = "1_sqrt_t" then sample_thickness
                  else 0 }
    else
      .error (.invalidTailRegion validation.warnings)

/-- `DiffusionAnalysisEngine.analyze_diffusion_behavior` (calcs.py lines
770-855): the body wrapped in the catch-all that re-raises every inner
failure as the single orchestrator error. -/
noncomputable def analyze_diffusion_behavior (time_minutes desorption_rate cumulative_hydrogen : List FV)
    (analysis_type : String) (tail_start : Option ℚ)
    (sample_thickness : ℝ) (calculate_D : Bool) : Except TDAErr DiffusionResult :=
  match analyzeBody time_minutes desorption_rate cumulative_hydrogen
      analysis_type tail_start sample_thickness calculate_D with
  | .ok r => .ok r
  | .error e => .error (.diffusionAnalysisError e)

/-- One-pass characterization of the points kept by
`calculate_1_sqrt_t_plot`: exactly those with `time ≥ tail_start`,
`rate > 0`, rate finite, and `time > 0`, in input order. -/
def sqrtPlotSurvivors (time rate : List FV) (ts : ℚ) : List (FV × ℚ) :=
  (time.zip rate).filterMap (fun p =>
    match p.2 with
    | .fin r => if p.1.geQ ts ∧ 0 < r ∧ p.1.gtQ 0 then some (p.1, r) else none
    | _ => none)

/-! Helper lemmas about the filters and candidate lists. -/

/-- Membership in the candidate list implies the time bound is strict. -/
theorem tailCandidates_mem_gt {valid : List (ℚ × ℚ)} {mt thr c : ℚ}
    (hc : c ∈ tailCandidates valid mt thr) : mt < c := by
  unfold tailCandidates at hc
  rcases List.mem_map.mp hc with ⟨p, hp, rfl⟩
  have h2 := (List.mem_filter.mp hp).2
  simp only [Bool.and_eq_true, decide_eq_true_eq] at h2
  exact h2.2

/-- A surviving pair of `validPairs` originates from a finite input pair with
positive rate. -/
theorem validPairs_mem {l : List (FV × FV)} {p : ℚ × ℚ}
    (hp : p ∈ validPairs l) : (FV.fin p.1, FV.fin p.2) ∈ l ∧ 0 < p.2 := by
  unfold validPairs at hp
  rcases List.mem_filterMap.mp hp with ⟨a, ha, hfa⟩
  rcases a with ⟨t, r⟩
  cases t <;> cases r <;> dsimp only at hfa <;> (try (exact Option.noConfusion hfa))
  case fin.fin tq rq =>
    by_cases hr : 0 < rq
    · rw [if_pos hr] at hfa
      cases hfa
      exact ⟨ha, hr⟩
    · rw [if_neg hr] at hfa
      exact Option.noConfusion hfa

/-- C4: `calculate_diffusion_coefficient` returns 0 for a zero slope,
otherwise `|pi * (slope * thickness)^2 / 4|` with the normalized
concentration difference fixed to 1, and its value is always
non-negative. -/
theorem calculate_diffusion_coefficient_spec (s L cr : ℝ) :
    (s = 0 → calculate_diffusion_coefficient s L cr = 0) ∧
    (s ≠ 0 → calculate_diffusion_coefficient s L cr = |Real.pi * (s * L) ^ 2 / 4|) ∧
    0 ≤ calculate_diffusion_coefficient s L cr := by
  unfold calculate_diffusion_coefficient
  refine ⟨fun h => by rw [if_pos h], fun h => by rw [if_neg h]; norm_num, ?_⟩
  split
  · exact le_refl 0
  · exact abs_nonneg _

/-- Witness for C4 at the concrete slopes 0 and 1. -/
theorem calculate_diffusion_coefficient_spec_witness :
    calculate_diffusion_coefficient 0 (1/10) 1 = 0 ∧
    calculate_diffusion_coefficient 1 1 1 = |Real.pi * ((1 : ℝ) * 1) ^ 2 / 4| ∧
    0 ≤ calculate_diffusion_coefficient 1 1 1 :=
  ⟨(calculate_diffusion_coefficient_spec 0 (1/10) 1).1 rfl,
   (calculate_diffusion_coefficient_spec 1 1 1).2.1 one_ne_zero,
   (calculate_diffusion_coefficient_spec 1 1 1).2.2⟩

/-- C10: `calculate_diffusion_coefficient` is even in the slope argument. -/
theorem calculate_diffusion_coefficient_even (s L cr : ℝ) :
    calculate_diffusion_coefficient s L cr =
      calculate_diffusion_coefficient (-s) L cr := by
  unfold calculate_diffusion_coefficient
  by_cases h : s = 0
  · rw [if_pos h, if_pos (by rw [h, neg_zero])]
  · rw [if_neg h, if_neg (neg_ne_zero.mpr h), neg_mul, neg_sq]

/-- C7: `assess_fit_quality` is monotone in R-squared with p-value and the
point count held fixed, with respect to the tier ordering
Poor < Fair < Good < Excellent. -/
theorem assess_fit_quality_monotone (p_value : ℚ) (num_points : Nat)
    (r1 r2 : ℚ) (h : r1 ≤ r2) :
    (assess_fit_quality r1 p_value num_points).rank ≤
      (assess_fit_quality r2 p_value num_points).rank := by
  have imp1 : (95/100 ≤ r1 ∧ p_value < 1/100 ∧ 10 ≤ num_points) →
      (95/100 ≤ r2 ∧ p_value < 1/100 ∧ 10 ≤ num_points) :=
    fun hc => ⟨hc.1.trans h, hc.2⟩
  have imp2 : (90/100 ≤ r1 ∧ p_value < 5/100 ∧ 8 ≤ num_points) →
      (90/100 ≤ r2 ∧ p_value < 5/100 ∧ 8 ≤ num_points) :=
    fun hc => ⟨hc.1.trans h, hc.2⟩
  have imp3 : (80/100 ≤ r1 ∧ p_value < 1/10 ∧ 5 ≤ num_points) →
      (80/100 ≤ r2 ∧ p_value < 1/10 ∧ 5 ≤ num_points) :=
    fun hc => ⟨hc.1.trans h, hc.2⟩
  unfold assess_fit_quality
  by_cases b1 : 95/100 ≤ r2 ∧ p_value < 1/100 ∧ 10 ≤ num_points
  · rw [if_pos b1]
    split_ifs <;> simp only [Grade.rank] <;> omega
  · rw [if_neg b1, if_neg (fun hc => b1 (imp1 hc))]
    by_cases b2 : 90/100 ≤ r2 ∧ p_value < 5/100 ∧ 8 ≤ num_points
    · rw [if_pos b2]
      split_ifs <;> simp only [Grade.rank] <;> omega
    · rw [if_neg b2, if_neg (fun hc => b2 (imp2 hc))]
      by_cases b3 : 80/100 ≤ r2 ∧ p_value < 1/10 ∧ 5 ≤ num_points
      · rw [if_pos b3]
        split_ifs <;> simp only [Grade.rank] <;> omega
      · rw [if_neg b3, if_neg (fun hc => b3 (imp3 hc))]

/-- Witness for C7 at concrete values of R-squared. -/
theorem assess_fit_quality_monotone_witness :
    (0 : ℚ) ≤ 1 ∧
    (assess_fit_quality 0 1 3).rank ≤ (assess_fit_quality 1 1 3).rank :=
  ⟨by norm_num, assess_fit_quality_monotone 1 3 0 1 (by norm_num)⟩

/-- C9: whenever `find_tail_start` returns a value, that value is at least
`min_time`: candidates must strictly exceed `min_time`, and the fallback
takes a maximum with `min_time`. -/
theorem find_tail_start_ge_min_time (time rate : List FV) (mt pf v : ℚ)
    (h : find_tail_start time rate mt pf = .ok v) : mt ≤ v := by
  unfold find_tail_start at h
  split at h
  · exact Except.noConfusion h
  · simp only at h
    split at h
    · exact Except.noConfusion h
    · split at h
      · cases h
        exact le_max_left _ _
      · cases h
        next heq =>
          have hc : v ∈ tailCandidates (validPairs (time.zip rate)) mt
              (listMaxD ((validPairs (time.zip rate)).map Prod.snd) 0 * pf) := by
            rw [heq]
            exact List.mem_cons_self _ _
          exact (tailCandidates_mem_gt hc).le

/-- Witness for C9: a concrete run that returns a value, which is at least
`min_time` = 60. -/
theorem find_tail_start_ge_min_time_witness :
    find_tail_start
      [.fin 10, .fin 20, .fin 30, .fin 40, .fin 50, .fin 60, .fin 70, .fin 80, .fin 90, .fin 100]
      [.fin 10, .fin 10, .fin 10, .fin 10, .fin 10, .fin 10, .fin 10, .fin 10, .fin 10, .fin (1/2)]
      60 (1/10) = .ok 100 ∧ (60 : ℚ) ≤ 100 :=
  ⟨by norm_num [find_tail_start, validPairs, tailCandidates, listMaxD, List.filterMap,
      List.filter, List.zip, List.zipWith],
   find_tail_start_ge_min_time
     [.fin 10, .fin 20, .fin 30, .fin 40, .fin 50, .fin 60, .fin 70, .fin 80, .fin 90, .fin 100]
     [.fin 10, .fin 10, .fin 10, .fin 10, .fin 10, .fin 10, .fin 10, .fin 10, .fin 10, .fin (1/2)]
     60 (1/10) 100
     (by norm_num [find_tail_start, validPairs, tailCandidates, listMaxD, List.filterMap,
        List.filter, List.zip, List.zipWith])⟩

/-- C1 counterexample: with one invalid leading entry, the no-candidate
fallback indexes the FILTERED time array, not the input array: the run
returns 130 (filtered index 3), while the claim's formula
`max(min_time, time[len(time)//3])` gives `max(60, time[3]) = 120`. -/
theorem find_tail_start_fallback_counterexample :
    find_tail_start
      [.fin 0, .fin 100, .fin 110, .fin 120, .fin 130, .fin 140, .fin 150, .fin 160, .fin 170, .fin 180]
      [.fin 0, .fin 1, .fin 1, .fin 1, .fin 1, .fin 1, .fin 1, .fin 1, .fin 1, .fin 1]
      60 (1/10) = .ok 130 ∧
    [(0 : ℚ), 100, 110, 120, 130, 140, 150, 160, 170, 180].getD (10 / 3) 0 = 120 ∧
    max (60 : ℚ) 120 = 120 ∧
    (130 : ℚ) ≠ 120 := by
  refine ⟨?_, ?_, ?_, ?_⟩ <;>
    norm_num [find_tail_start, validPairs, tailCandidates, listMaxD, List.filterMap,
      List.filter, List.zip, List.zipWith]

/-- C1 (amended): `find_tail_start` demands equal lengths of at least 10
entries, then at least 5 valid (finite, positive-rate) entries, computes the
threshold `max(filtered rate) * peak_fraction`, and returns the first
filtered time with rate below the threshold and time strictly after
`min_time` (the earliest such time when the filtered times are
nondecreasing); with no candidate it falls back to
`max(min_time, t[len(t)//3])` over the FILTERED time array `t`. -/
theorem find_tail_start_spec (time rate : List FV) (mt pf : ℚ) :
    (¬(time.length = rate.length ∧ 10 ≤ time.length) →
      find_tail_start time rate mt pf =
        .error (.insufficientData "Insufficient data for tail analysis")) ∧
    (time.length = rate.length ∧ 10 ≤ time.length →
      ((validPairs (time.zip rate)).length < 5 →
        find_tail_start time rate mt pf =
          .error (.insufficientData "Insufficient valid data points")) ∧
      (5 ≤ (validPairs (time.zip rate)).length →
        (∀ c l,
          tailCandidates (validPairs (time.zip rate)) mt
              (listMaxD ((validPairs (time.zip rate)).map Prod.snd) 0 * pf) = c :: l →
          find_tail_start time rate mt pf = .ok c ∧
          (((validPairs (time.zip rate)).map Prod.fst).Pairwise (· ≤ ·) →
            ∀ d ∈ tailCandidates (validPairs (time.zip rate)) mt
                (listMaxD ((validPairs (time.zip rate)).map Prod.snd) 0 * pf), c ≤ d)) ∧
        (tailCandidates (validPairs (time.zip rate)) mt
            (listMaxD ((validPairs (time.zip rate)).map Prod.snd) 0 * pf) = [] →
          find_tail_start time rate mt pf =
            .ok (max mt (((validPairs (time.zip rate)).map Prod.fst).getD
              ((validPairs (time.zip rate)).length / 3) 0))))) := by
  have hg : (time.length ≠ rate.length ∨ time.length < 10) ↔
      ¬(time.length = rate.length ∧ 10 ≤ time.length) := by
    constructor
    · rintro (h | h) ⟨h1, h2⟩
      · exact h h1
      · omega
    · intro h
      rcases Decidable.em (time.length = rate.length) with he | he
      · rcases Nat.lt_or_ge time.length 10 with hl | hl
        · exact Or.inr hl
        · exact absurd ⟨he, hl⟩ h
      · exact Or.inl he
  refine ⟨?_, fun hlen => ⟨?_, fun h5 => ⟨?_, ?_⟩⟩⟩
  · intro h
    simp only [find_tail_start]
    rw [if_pos (hg.mpr h)]
  · intro hsmall
    simp only [find_tail_start]
    rw [if_neg (fun hc => (hg.mp hc) hlen), if_pos hsmall]
  · intro c l hcl
    constructor
    · simp only [find_tail_start]
      rw [if_neg (fun hc => (hg.mp hc) hlen), if_neg (Nat.not_lt.mpr h5), hcl]
    · intro hsort d hd
      have hsub : List.Sublist
          (tailCandidates (validPairs (time.zip rate)) mt
            (listMaxD ((validPairs (time.zip rate)).map Prod.snd) 0 * pf))
          ((validPairs (time.zip rate)).map Prod.fst) :=
        List.Sublist.map Prod.fst (List.filter_sublist _)
      have hpw := hsort.sublist hsub
      rw [hcl] at hpw hd
      rcases List.mem_cons.mp hd with rfl | hd
      · exact le_refl d
      · exact (List.pairwise_cons.mp hpw).1 d hd
  · intro hnil
    simp only [find_tail_start]
    rw [if_neg (fun hc => (hg.mp hc) hlen), if_neg (Nat.not_lt.mpr h5), hnil]

/-- Witness for the amended C1 at a concrete run taking the candidate branch. -/
theorem find_tail_start_spec_witness :
    find_tail_start
      [.fin 5, .fin 15, .fin 25, .fin 35, .fin 45, .fin 55, .fin 65, .fin 75, .fin 85, .fin 95]
      [.fin 8, .fin 8, .fin 8, .fin 8, .fin 8, .fin 8, .fin 8, .fin 8, .fin 8, .fin (1/4)]
      60 (1/10) = .ok 95 :=
  ((((find_tail_start_spec
      [.fin 5, .fin 15, .fin 25, .fin 35, .fin 45, .fin 55, .fin 65, .fin 75, .fin 85, .fin 95]
      [.fin 8, .fin 8, .fin 8, .fin 8, .fin 8, .fin 8, .fin 8, .fin 8, .fin 8, .fin (1/4)]
      60 (1/10)).2 ⟨rfl, by norm_num⟩).2
    (by norm_num [validPairs, List.filterMap, List.zip, List.zipWith])).1 95 []
    (by norm_num [validPairs, tailCandidates, listMaxD, List.filterMap, List.filter,
      List.zip, List.zipWith])).1

/-- C6 counterexample: the report's span field is `duration/60` (hours), not
minutes, and the filter also requires finite TIME: on an input whose tail
spans 180 minutes and contains one `+inf` time with valid rate, the report
counts 3 points (not the 4 with positive finite rate at `time ≥
tail_start`) and reports the span as 3, not 180. -/
theorem validate_tail_region_counterexample :
    (validate_tail_region [.fin 0, .fin 60, .fin 180, .pinf]
      [.fin 1, .fin 1, .fin 1, .fin 1] 0).num_points = 3 ∧
    (3 : Nat) ≠ 4 ∧
    (validate_tail_region [.fin 0, .fin 60, .fin 180, .pinf]
      [.fin 1, .fin 1, .fin 1, .fin 1] 0).max_time -
      (validate_tail_region [.fin 0, .fin 60, .fin 180, .pinf]
        [.fin 1, .fin 1, .fin 1, .fin 1] 0).min_time = 180 ∧
    (validate_tail_region [.fin 0, .fin 60, .fin 180, .pinf]
      [.fin 1, .fin 1, .fin 1, .fin 1] 0).duration_hours = 3 ∧
    (3 : ℚ) ≠ 180 := by
  refine ⟨?_, ?_, ?_, ?_, ?_⟩ <;>
    norm_num [validate_tail_region, tailValidPairs, validPairs, FV.geQ,
      List.filterMap, List.filter, List.zip, List.zipWith]

/-- C6 (amended): `validate_tail_region` filters to `time ≥ tail_start` with
positive finite rate AND finite time; it never fails (the embedding is a
total function), `is_valid` holds exactly when the filtered count is at
least 10, the span is computed in minutes but the report field carries
span/60 (hours), and the report contains a warning (not a failure) exactly
when count < 10 or the span is under 60 minutes. -/
theorem validate_tail_region_spec (time rate : List FV) (ts : ℚ) :
    (validate_tail_region time rate ts).num_points =
      (tailValidPairs time rate ts).length ∧
    ((validate_tail_region time rate ts).is_valid = true ↔
      10 ≤ (tailValidPairs time rate ts).length) ∧
    (validate_tail_region time rate ts).duration_hours =
      (if 1 < (tailValidPairs time rate ts).length then
        (validate_tail_region time rate ts).max_time -
          (validate_tail_region time rate ts).min_time
      else 0) / 60 ∧
    ((tailValidPairs time rate ts).length < 10 ↔
      "Insufficient data points for reliable analysis (minimum 10 recommended)" ∈
        (validate_tail_region time rate ts).warnings) ∧
    ((if 1 < (tailValidPairs time rate ts).length then
        ((tailValidPairs time rate ts).map Prod.fst).getLastD 0 -
          ((tailValidPairs time rate ts).map Prod.fst).headD 0
      else 0) < 60 ↔
      "Short tail duration may affect analysis quality" ∈
        (validate_tail_region time rate ts).warnings) ∧
    (∀ p ∈ tailValidPairs time rate ts, ts ≤ p.1) := by
  refine ⟨rfl, ?_, ?_, ?_, ?_, ?_⟩
  · simp [validate_tail_region]
  · by_cases h1 : 1 < (tailValidPairs time rate ts).length
    · have h0 : 0 < (tailValidPairs time rate ts).length := by omega
      simp [validate_tail_region, h1, h0]
    · simp [validate_tail_region, h1]
  · by_cases hc : (tailValidPairs time rate ts).length < 10 <;>
      by_cases hd : (if 1 < (tailValidPairs time rate ts).length then
          ((tailValidPairs time rate ts).map Prod.fst).getLastD 0 -
            ((tailValidPairs time rate ts).map Prod.fst).headD 0
        else 0) < 60 <;>
      simp [validate_tail_region, hc, hd]
  · by_cases hc : (tailValidPairs time rate ts).length < 10 <;>
      by_cases hd : (if 1 < (tailValidPairs time rate ts).length then
          ((tailValidPairs time rate ts).map Prod.fst).getLastD 0 -
            ((tailValidPairs time rate ts).map Prod.fst).headD 0
        else 0) < 60 <;>
      simp [validate_tail_region, hc, hd]
  · intro p hp
    have hm := validPairs_mem hp
    have hge := (List.mem_filter.mp hm.1).2
    simp only [FV.geQ, decide_eq_true_eq] at hge
    exact hge

/-- Witness for the amended C6 at a concrete single-point input. -/
theorem validate_tail_region_spec_witness :
    ((validate_tail_region [.fin 100] [.fin 1] 0).is_valid = true ↔
      10 ≤ (tailValidPairs [.fin 100] [.fin 1] 0).length) ∧
    (0 : ℚ) ≤ 100 :=
  ⟨(validate_tail_region_spec [.fin 100] [.fin 1] 0).2.1,
   (validate_tail_region_spec [.fin 100] [.fin 1] 0).2.2.2.2.2 (100, 1)
     (by norm_num [tailValidPairs, validPairs, FV.geQ, List.filterMap,
        List.filter, List.zip, List.zipWith])⟩

/-- Fusing the tail filter into the valid mask of the 1/√t transform. -/
theorem sqrtTailSurvivors_filter (pairs : List (FV × FV)) (ts : ℚ) :
    sqrtTailSurvivors (pairs.filter (fun p => p.1.geQ ts)) =
      pairs.filterMap (fun p =>
        match p.2 with
        | .fin r => if p.1.geQ ts ∧ 0 < r ∧ p.1.gtQ 0 then some (p.1, r) else none
        | _ => none) := by
  induction pairs with
  | nil => rfl
  | cons a l ih =>
    rcases a with ⟨t, r⟩
    rw [List.filter_cons]
    cases hg : t.geQ ts
    · simp only [Bool.false_eq_true, if_false]
      rw [ih, List.filterMap_cons]
      cases r <;> simp [hg]
    · simp only [if_true]
      unfold sqrtTailSurvivors
      rw [List.filterMap_cons, List.filterMap_cons]
      cases r <;> simp [hg, sqrtTailSurvivors] at ih ⊢ <;> rw [ih]

/-- C2: the 1/√t transform keeps exactly the points with `time ≥
tail_start`, positive finite rate and positive time; it fails with
`InsufficientTailDataError` when fewer than 3 points survive; each surviving
point contributes `x = 1/sqrt(time*60)` (minutes converted to seconds) and
`y = rate`; and every surviving point satisfies `time ≥ tail_start`. -/
theorem calculate_1_sqrt_t_plot_spec (time rate : List FV) (ts : ℚ)
    (hlen : time.length = rate.length) :
    ((sqrtPlotSurvivors time rate ts).length < 3 →
      calculate_1_sqrt_t_plot time rate ts =
        .error (.insufficientTailData "Insufficient valid data points in tail region")) ∧
    (3 ≤ (sqrtPlotSurvivors time rate ts).length →
      calculate_1_sqrt_t_plot time rate ts =
        .ok ((sqrtPlotSurvivors time rate ts).map (fun p => invSqrt60 p.1),
             (sqrtPlotSurvivors time rate ts).map Prod.snd)) ∧
    (∀ p ∈ sqrtPlotSurvivors time rate ts, p.1.geQ ts = true) ∧
    (∀ t : ℚ, invSqrt60 (.fin t) = 1 / Real.sqrt ((t : ℝ) * 60)) := by
  have hfuse : sqrtTailSurvivors ((time.zip rate).filter (fun p => p.1.geQ ts)) =
      sqrtPlotSurvivors time rate ts :=
    sqrtTailSurvivors_filter (time.zip rate) ts
  refine ⟨?_, ?_, ?_, ?_⟩
  · intro h
    simp only [calculate_1_sqrt_t_plot]
    rw [hfuse, if_pos h]
  · intro h
    simp only [calculate_1_sqrt_t_plot]
    rw [hfuse, if_neg (Nat.not_lt.mpr h)]
  · intro p hp
    unfold sqrtPlotSurvivors at hp
    rcases List.mem_filterMap.mp hp with ⟨a, ha, hfa⟩
    rcases a with ⟨t, r⟩
    cases r <;> dsimp only at hfa <;> (try (exact Option.noConfusion hfa))
    case fin rq =>
      by_cases hc : t.geQ ts ∧ 0 < rq ∧ t.gtQ 0
      · rw [if_pos hc] at hfa
        cases hfa
        exact hc.1
      · rw [if_neg hc] at hfa
        exact Option.noConfusion hfa
  · intro t
    unfold invSqrt60
    rw [mul_comm]

/-- Witness for C2 at a concrete three-point tail. -/
theorem calculate_1_sqrt_t_plot_spec_witness :
    calculate_1_sqrt_t_plot [.fin 100, .fin 200, .fin 300] [.fin 1, .fin 1, .fin 1] 60 =
      .ok ((sqrtPlotSurvivors [.fin 100, .fin 200, .fin 300] [.fin 1, .fin 1, .fin 1] 60).map
            (fun p => invSqrt60 p.1),
          (sqrtPlotSurvivors [.fin 100, .fin 200, .fin 300] [.fin 1, .fin 1, .fin 1] 60).map
            Prod.snd) :=
  (calculate_1_sqrt_t_plot_spec [.fin 100, .fin 200, .fin 300] [.fin 1, .fin 1, .fin 1] 60
      rfl).2.1
    (by norm_num [sqrtPlotSurvivors, FV.geQ, FV.gtQ, List.filterMap, List.zip, List.zipWith])

/-- C3: the regression requires equal lengths of at least 3 (else
`InsufficientDataError`), drops exactly the points with `|y| ≤
noise_threshold`, and fails with the distinct error
`InsufficientDataAboveNoiseError` when fewer than 3 points survive the
noise filter. -/
theorem perform_linear_regression_guards {α : Type} [LinearOrderedField α]
    (x y : List α) (nt : α) :
    (¬(x.length = y.length ∧ 3 ≤ x.length) →
      perform_linear_regression x y nt =
        .error (.insufficientData "Insufficient data for regression analysis")) ∧
    (x.length = y.length ∧ 3 ≤ x.length →
      ((x.zip y).filter (fun p => decide (nt < |p.2|)) =
        (x.zip y).filter (fun p => !decide (|p.2| ≤ nt))) ∧
      (((x.zip y).filter (fun p => decide (nt < |p.2|))).length < 3 →
        perform_linear_regression x y nt = .error .insufficientDataAboveNoise) ∧
      (3 ≤ ((x.zip y).filter (fun p => decide (nt < |p.2|))).length →
        ∃ r, perform_linear_regression x y nt = .ok r)) ∧
    (∀ m, TDAErr.insufficientData m ≠ TDAErr.insufficientDataAboveNoise) := by
  have hg : (x.length ≠ y.length ∨ x.length < 3) ↔
      ¬(x.length = y.length ∧ 3 ≤ x.length) := by
    constructor
    · rintro (h | h) ⟨h1, h2⟩
      · exact h h1
      · omega
    · intro h
      rcases Decidable.em (x.length = y.length) with he | he
      · rcases Nat.lt_or_ge x.length 3 with hl | hl
        · exact Or.inr hl
        · exact absurd ⟨he, hl⟩ h
      · exact Or.inl he
  refine ⟨?_, fun hlen => ⟨?_, ?_, ?_⟩, fun m h => TDAErr.noConfusion h⟩
  · intro h
    simp only [perform_linear_regression]
    rw [if_pos (hg.mpr h)]
  · refine List.filter_congr (fun p _ => ?_)
    rcases lt_or_le nt |p.2| with hlt | hle
    · simp [hlt, not_le.mpr hlt]
    · simp [hle, not_lt.mpr hle]
  · intro h
    simp only [perform_linear_regression]
    rw [if_neg (fun hc => (hg.mp hc) hlen), if_pos h]
  · intro h
    simp only [perform_linear_regression]
    rw [if_neg (fun hc => (hg.mp hc) hlen), if_neg (Nat.not_lt.mpr h)]
    exact ⟨_, rfl⟩

/-- Witness for C3: the all-noise scenario, where every rate is at or below
the noise threshold, fails with the distinct above-noise error. -/
theorem perform_linear_regression_guards_witness :
    perform_linear_regression ([1, 2, 3] : List ℚ) [0, 0, 0] (1 / 10 ^ 12) =
      .error .insufficientDataAboveNoise :=
  ((perform_linear_regression_guards ([1, 2, 3] : List ℚ) [0, 0, 0] (1 / 10 ^ 12)).2.1
    ⟨rfl, by norm_num⟩).2.1
    (by norm_num [List.filter, List.zip, List.zipWith])

/-- Pointwise value of the 100-point sample grid. -/
theorem linspace100_getD {α : Type} [LinearOrderedField α] (a b : α)
    (i : Nat) (h : i < 100) :
    (linspace100 a b).getD i 0 = a + (i : α) * (b - a) / 99 := by
  unfold linspace100
  rw [List.getD_eq_getElem?_getD, List.getElem?_map, List.getElem?_range h]
  rfl

/-- C8: on every successful regression the fit line consists of exactly 100
evenly spaced x values spanning the range of the noise-filtered x data
(first sample the minimum, last the maximum, constant spacing), and each fit
y value equals `slope * fit_x + intercept`. -/
theorem perform_linear_regression_fit_line {α : Type} [LinearOrderedField α]
    (x y : List α) (nt : α) (r : RegResult α)
    (h : perform_linear_regression x y nt = .ok r) :
    r.fit_x.length = 100 ∧
    (∀ i, i < 100 →
      r.fit_x.getD i 0 =
        listMinD (((x.zip y).filter (fun p => decide (nt < |p.2|))).map Prod.fst) 0 +
          (i : α) *
            (listMaxD (((x.zip y).filter (fun p => decide (nt < |p.2|))).map Prod.fst) 0 -
              listMinD (((x.zip y).filter (fun p => decide (nt < |p.2|))).map Prod.fst) 0) /
            99) ∧
    r.fit_x.getD 0 0 =
      listMinD (((x.zip y).filter (fun p => decide (nt < |p.2|))).map Prod.fst) 0 ∧
    r.fit_x.getD 99 0 =
      listMaxD (((x.zip y).filter (fun p => decide (nt < |p.2|))).map Prod.fst) 0 ∧
    (∀ i, i + 1 < 100 →
      r.fit_x.getD (i + 1) 0 - r.fit_x.getD i 0 =
        (listMaxD (((x.zip y).filter (fun p => decide (nt < |p.2|))).map Prod.fst) 0 -
          listMinD (((x.zip y).filter (fun p => decide (nt < |p.2|))).map Prod.fst) 0) /
          99) ∧
    r.fit_y = r.fit_x.map (fun t => r.slope * t + r.intercept) := by
  simp only [perform_linear_regression] at h
  split_ifs at h with h1 h2
  cases h
  have h99 : (99 : α) ≠ 0 := by norm_num
  refine ⟨by simp [linspace100], fun i hi => linspace100_getD _ _ i hi, ?_, ?_, ?_, rfl⟩
  · rw [linspace100_getD _ _ 0 (by norm_num)]
    push_cast
    ring
  · rw [linspace100_getD _ _ 99 (by norm_num)]
    push_cast
    field_simp
  · intro i hi
    rw [linspace100_getD _ _ (i + 1) hi, linspace100_getD _ _ i (by omega)]
    push_cast
    ring

/-- Witness for C8 at a concrete successful regression over the rationals. -/
theorem perform_linear_regression_fit_line_witness :
    ∃ r : RegResult ℚ,
      perform_linear_regression ([0, 1, 2] : List ℚ) [1, 2, 3] 0 = .ok r ∧
      r.fit_x.length = 100 ∧
      r.fit_y = r.fit_x.map (fun t => r.slope * t + r.intercept) := by
  obtain ⟨r, hok⟩ : ∃ r, perform_linear_regression ([0, 1, 2] : List ℚ) [1, 2, 3] 0 = .ok r := by
    simp only [perform_linear_regression]
    norm_num [List.filter, List.zip, List.zipWith]
  obtain ⟨h1, _, _, _, _, h6⟩ :=
    perform_linear_regression_fit_line ([0, 1, 2] : List ℚ) [1, 2, 3] 0 r hok
  exact ⟨r, hok, h1, h6⟩

/-- The 1/√t transform only ever fails with the tail-data error. -/
theorem calculate_1_sqrt_t_plot_error_shape {time rate : List FV} {ts : ℚ}
    {e : TDAErr} (h : calculate_1_sqrt_t_plot time rate ts = .error e) :
    e = .insufficientTailData "Insufficient valid data points in tail region" := by
  simp only [calculate_1_sqrt_t_plot] at h
  split_ifs at h
  exact (Except.error.inj h).symm

/-- The √t transform only ever fails with the tail-data error. -/
theorem calculate_sqrt_t_plot_error_shape {time cumul : List FV} {ts : ℚ}
    {e : TDAErr} (h : calculate_sqrt_t_plot time cumul ts = .error e) :
    e = .insufficientTailData "Insufficient valid data points in tail region" := by
  simp only [calculate_sqrt_t_plot] at h
  split_ifs at h
  exact (Except.error.inj h).symm

/-- The log-log transform only ever fails with the tail-data error. -/
theorem calculate_log_log_plot_error_shape {time rate : List FV} {ts : ℚ}
    {e : TDAErr} (h : calculate_log_log_plot time rate ts = .error e) :
    e = .insufficientTailData "Insufficient valid data points in tail region" := by
  simp only [calculate_log_log_plot] at h
  split_ifs at h
  exact (Except.error.inj h).symm

/-- The mode dispatch fails only with a tail-data or unknown-mode error. -/
theorem transformFor_error_shape {mode : String}
    {time rate cumul : List FV} {ts : ℚ} {e : TDAErr}
    (h : transformFor mode time rate cumul ts = .error e) :
    (∃ m, e = .insufficientTailData m) ∨ (∃ m, e = .unknownAnalysisMode m) := by
  simp only [transformFor] at h
  split_ifs at h
  · cases hc : calculate_1_sqrt_t_plot time rate ts with
    | ok v => rw [hc] at h; exact Except.noConfusion h
    | error e0 =>
      rw [hc] at h
      exact Or.inl ⟨_, (Except.error.inj h).symm.trans
        (calculate_1_sqrt_t_plot_error_shape hc)⟩
  · cases hc : calculate_sqrt_t_plot time cumul ts with
    | ok v => rw [hc] at h; exact Except.noConfusion h
    | error e0 =>
      rw [hc] at h
      exact Or.inl ⟨_, (Except.error.inj h).symm.trans
        (calculate_sqrt_t_plot_error_shape hc)⟩
  · cases hc : calculate_log_log_plot time rate ts with
    | ok v => rw [hc] at h; exact Except.noConfusion h
    | error e0 =>
      rw [hc] at h
      exact Or.inl ⟨_, (Except.error.inj h).symm.trans
        (calculate_log_log_plot_error_shape hc)⟩
  · exact Or.inr ⟨mode, (Except.error.inj h).symm⟩

/-- The regression fails only with the length-guard or above-noise error. -/
theorem perform_linear_regression_error_shape {α : Type} [LinearOrderedField α]
    {x y : List α} {nt : α} {e : TDAErr}
    (h : perform_linear_regression x y nt = .error e) :
    e = .insufficientData "Insufficient data for regression analysis" ∨
    e = .insufficientDataAboveNoise := by
  simp only [perform_linear_regression] at h
  split_ifs at h
  · exact Or.inl (Except.error.inj h).symm
  · exact Or.inr (Except.error.inj h).symm

/-- C5: the orchestrator fails with the invalid-tail-region error (carrying
the validation warnings) exactly when validation reports `is_valid = false`,
i.e. fewer than 10 valid points at `time ≥ tail_start`; and every failure is
re-raised wrapped in the single orchestrator error constructor, so callers
see one error taxonomy regardless of which inner step failed. -/
theorem analyze_error_taxonomy (time rate cumul : List FV) (mode : String)
    (tsOpt : Option ℚ) (ts : ℚ) (L : ℝ) (cD : Bool) :
    (∀ e, analyze_diffusion_behavior time rate cumul mode tsOpt L cD = .error e →
      ∃ inner, e = .diffusionAnalysisError inner) ∧
    ((∃ w, analyze_diffusion_behavior time rate cumul mode (some ts) L cD =
        .error (.diffusionAnalysisError (.invalidTailRegion w))) ↔
      (validate_tail_region time rate ts).is_valid = false) ∧
    ((validate_tail_region time rate ts).is_valid = false ↔
      (tailValidPairs time rate ts).length < 10) := by
  refine ⟨?_, ⟨?_, ?_⟩, ?_⟩
  · intro e he
    unfold analyze_diffusion_behavior at he
    cases hb : analyzeBody time rate cumul mode tsOpt L cD with
    | ok v => rw [hb] at he; exact Except.noConfusion he
    | error e0 => rw [hb] at he; exact ⟨e0, (Except.error.inj he).symm⟩
  · rintro ⟨w, hw⟩
    by_contra hv
    have hvt : (validate_tail_region time rate ts).is_valid = true := by
      cases hbo : (validate_tail_region time rate ts).is_valid
      · exact absurd hbo hv
      · rfl
    unfold analyze_diffusion_behavior at hw
    cases hb : analyzeBody time rate cumul mode (some ts) L cD with
    | ok v => rw [hb] at hw; exact Except.noConfusion hw
    | error e0 =>
      rw [hb] at hw
      have he0 : e0 = .invalidTailRegion w :=
        TDAErr.diffusionAnalysisError.inj (Except.error.inj hw)
      unfold analyzeBody at hb
      dsimp only at hb
      rw [hvt] at hb
      simp only [if_true] at hb
      cases ht : transformFor mode time rate cumul ts with
      | error e1 =>
        rw [ht] at hb
        have he1 : e1 = e0 := Except.error.inj hb
        rcases transformFor_error_shape ht with ⟨m, hm⟩ | ⟨m, hm⟩ <;>
          rw [he1, he0] at hm <;> exact TDAErr.noConfusion hm
      | ok v =>
        rcases v with ⟨xs, ys⟩
        rw [ht] at hb
        dsimp only at hb
        cases hr : perform_linear_regression xs ys (1 / 10 ^ 12) with
        | error e2 =>
          rw [hr] at hb
          have he2 : e2 = e0 := Except.error.inj hb
          rcases perform_linear_regression_error_shape hr with hm | hm <;>
            rw [he0] at he2 <;> rw [he2] at hm <;> exact TDAErr.noConfusion hm
        | ok reg =>
          rw [hr] at hb
          exact Except.noConfusion hb
  · intro hv
    refine ⟨(validate_tail_region time rate ts).warnings, ?_⟩
    unfold analyze_diffusion_behavior analyzeBody
    dsimp only
    rw [hv]
    simp only [Bool.false_eq_true, if_false]
  · constructor
    · intro hv
      simp only [validate_tail_region] at hv
      simpa [decide_eq_false_iff_not, Nat.not_le] using hv
    · intro hc
      simp only [validate_tail_region]
      simpa [decide_eq_false_iff_not, Nat.not_le] using hc

/-- Witness for C5: a two-point tail fails validation, and the orchestrator
reports the invalid tail region wrapped in the single orchestrator error. -/
theorem analyze_error_taxonomy_witness :
    (∃ w, analyze_diffusion_behavior [.fin 100, .fin 200] [.fin 1, .fin 1] []
        "1_sqrt_t" (some 60) 1 true =
      .error (.diffusionAnalysisError (.invalidTailRegion w))) ∧
    (validate_tail_region [.fin 100, .fin 200] [.fin 1, .fin 1] 60).is_valid = false := by
  have hv : (validate_tail_region [.fin 100, .fin 200] [.fin 1, .fin 1] 60).is_valid
      = false := by
    norm_num [validate_tail_region, tailValidPairs, validPairs, FV.geQ,
      List.filterMap, List.filter, List.zip, List.zipWith]
  exact ⟨(analyze_error_taxonomy [.fin 100, .fin 200] [.fin 1, .fin 1] []
    "1_sqrt_t" (some 60) 60 1 true).2.1.mpr hv, hv⟩
